import Mathlib

/-!
Verification development for the videocraft whisper daemon scripts
(src/scripts/url_validator.py and src/scripts/whisper_daemon.py).

The Python code is shallowly embedded: pure functions become Lean
functions, exceptions become Except results, and the mutable daemon
object becomes explicit state passing.  Behaviour of the CPython
standard library that the scripts rely on (the ipaddress module and
urllib.parse) is embedded from the stdlib sources of CPython 3.11:
IP addresses are natural numbers below 2 to the 32 (IPv4) or below
2 to the 128 (IPv6), and the classification predicates mirror the
constant network lists of Lib/ipaddress.py.  Numeric timestamps
(time.time values) are modelled as integers; only order comparisons
on them matter to the code.
-/

namespace VideoCraft

/-! ## IP addresses, following CPython 3.11 Lib/ipaddress.py -/

/-- Dotted quad to a 32-bit value. -/
def ipv4 (a b c d : Nat) : Nat := ((a * 256 + b) * 256 + c) * 256 + d

/-- Membership of address a in the network net/plen for bit width w,
as in Python: the top plen bits of a agree with those of net. -/
def inNet (w : Nat) (net plen a : Nat) : Bool :=
  a / 2 ^ (w - plen) = net / 2 ^ (w - plen)

namespace IPv4

/-- CPython: _loopback_network = 127.0.0.0/8. -/
def is_loopback (a : Nat) : Bool := inNet 32 (ipv4 127 0 0 0) 8 a

/-- CPython: _linklocal_network = 169.254.0.0/16. -/
def is_link_local (a : Nat) : Bool := inNet 32 (ipv4 169 254 0 0) 16 a

/-- CPython _IPv4Constants._private_networks, verbatim. -/
def private_networks : List (Nat × Nat) :=
  [ (ipv4 0 0 0 0, 8)
  , (ipv4 10 0 0 0, 8)
  , (ipv4 127 0 0 0, 8)
  , (ipv4 169 254 0 0, 16)
  , (ipv4 172 16 0 0, 12)
  , (ipv4 192 0 0 0, 29)
  , (ipv4 192 0 0 170, 31)
  , (ipv4 192 0 2 0, 24)
  , (ipv4 192 168 0 0, 16)
  , (ipv4 198 18 0 0, 15)
  , (ipv4 198 51 100 0, 24)
  , (ipv4 203 0 113 0, 24)
  , (ipv4 240 0 0 0, 4)
  , (ipv4 255 255 255 255, 32) ]

/-- CPython IPv4Address.is_private: member of any private network. -/
def is_private (a : Nat) : Bool :=
  private_networks.any fun nw => inNet 32 nw.1 nw.2 a

/-- CPython: _multicast_network = 224.0.0.0/4. -/
def is_multicast (a : Nat) : Bool := inNet 32 (ipv4 224 0 0 0) 4 a

/-- CPython: _unspecified_address = 0.0.0.0. -/
def is_unspecified (a : Nat) : Bool := a = 0

end IPv4

namespace IPv6

/-- CPython IPv6Address.ipv4_mapped: some embedded IPv4 value when the
top 96 bits are ::ffff:0:0/96, none otherwise. -/
def ipv4_mapped (a : Nat) : Option Nat :=
  if a / 2 ^ 32 = 0xffff then some (a % 2 ^ 32) else none

/-- CPython IPv6Address.is_loopback: the address ::1. -/
def is_loopback (a : Nat) : Bool := a = 1

/-- CPython: _linklocal_network = fe80::/10. -/
def is_link_local (a : Nat) : Bool := inNet 128 (0xfe80 * 2 ^ 112) 10 a

/-- CPython _IPv6Constants._private_networks, verbatim. -/
def private_networks : List (Nat × Nat) :=
  [ (1, 128)
  , (0, 128)
  , (0xffff * 2 ^ 32, 96)
  , (0x0100 * 2 ^ 112, 64)
  , (0x2001 * 2 ^ 112, 23)
  , (0x2001 * 2 ^ 112 + 0x0002 * 2 ^ 96, 48)
  , (0x2001 * 2 ^ 112 + 0x0db8 * 2 ^ 96, 32)
  , (0x2001 * 2 ^ 112 + 0x0010 * 2 ^ 96, 28)
  , (0xfc00 * 2 ^ 112, 7)
  , (0xfe80 * 2 ^ 112, 10) ]

/-- CPython IPv6Address.is_private: when the address is IPv4-mapped the
check is delegated to the embedded IPv4 address, otherwise membership
in the IPv6 private network list decides. -/
def is_private (a : Nat) : Bool :=
  match ipv4_mapped a with
  | some m => IPv4.is_private m
  | none => private_networks.any fun nw => inNet 128 nw.1 nw.2 a

/-- CPython: _multicast_network = ff00::/8. -/
def is_multicast (a : Nat) : Bool := inNet 128 (0xff00 * 2 ^ 112) 8 a

/-- CPython IPv6Address.is_unspecified: the address ::. -/
def is_unspecified (a : Nat) : Bool := a = 0

end IPv6

/-- An ipaddress.ip_address value: IPv4Address or IPv6Address. -/
inductive IPAddr where
  | v4 (a : Nat)
  | v6 (a : Nat)
  deriving DecidableEq

/-! String rendering of addresses, mirroring str(ip) in CPython, which
appears inside the SSRFError messages. -/

/-- Hexadecimal digits of n, lowercase, as produced by the percent x
format in Python. -/
def hexStr (n : Nat) : String := String.mk (Nat.toDigits 16 n)

/-- CPython IPv4Address.__str__: dotted decimal quad. -/
def IPv4.str (a : Nat) : String :=
  toString (a / 2 ^ 24 % 256) ++ "." ++ toString (a / 2 ^ 16 % 256) ++ "."
    ++ toString (a / 2 ^ 8 % 256) ++ "." ++ toString (a % 256)

/-- The eight 16-bit groups of an IPv6 address, most significant first. -/
def IPv6.hextets (a : Nat) : List Nat :=
  (List.range 8).map fun i => a / 2 ^ (16 * (7 - i)) % 65536

/-- First longest run of zeros in a hextet list: start index and length,
as computed by the doublecolon scan in CPython _string_from_ip. -/
def longestZeroRun : List Nat → Nat → Nat × Nat → Nat × Nat → Nat × Nat
  | [], _, best, _ => best
  | x :: xs, i, best, cur =>
    if x = 0 then
      let cur := if cur.2 = 0 then (i, 1) else (cur.1, cur.2 + 1)
      let best := if cur.2 > best.2 then cur else best
      longestZeroRun xs (i + 1) best cur
    else
      longestZeroRun xs (i + 1) best (0, 0)

/-- CPython IPv6Address.__str__ (_string_from_ip): hextets in lowercase
hex without leading zeros, with the first longest zero run of length at
least two compressed to a double colon. -/
def IPv6.str (a : Nat) : String :=
  let hx := IPv6.hextets a
  let best := longestZeroRun hx 0 (0, 0) (0, 0)
  if best.2 > 1 then
    let parts :=
      (if best.1 = 0 then [""] else []) ++ (hx.take best.1).map hexStr
        ++ [""] ++ (hx.drop (best.1 + best.2)).map hexStr
        ++ (if best.1 + best.2 = 8 then [""] else [])
    String.intercalate ":" parts
  else
    String.intercalate ":" (hx.map hexStr)

/-- str(ip) for an ip_address value. -/
def IPAddr.str : IPAddr → String
  | .v4 a => IPv4.str a
  | .v6 a => IPv6.str a

/-! ## SSRFError and the URL model -/

/-- The SSRFError exceptions raised by url_validator.py, one constructor
per distinct raise site, carrying the data interpolated into the
message. -/
inductive SSRFError where
  | emptyURL
  | malformedParse (detail : String)
  | malformedMissingHost
  | malformedMissingHostname
  | schemeNotAllowed (scheme : String)
  | dangerousPort (port : Nat)
  | systemPort (port : Nat)
  | domainNotInAllowlist (hostname : String)
  | loopbackAddr (ip : IPAddr)
  | linkLocalAddr (ip : IPAddr)
  | privateAddr (ip : IPAddr)
  | multicastAddr (ip : IPAddr)
  | unspecifiedAddr (ip : IPAddr)
  | broadcastAddr (ip : IPAddr)
  | resolutionFailure (hostname : String)
  | resolvesToUnsafe (hostname : String) (inner : SSRFError)
  deriving DecidableEq

/-- str(e) of each SSRFError, mirroring the Python f-strings.  The set
literal of ALLOWED_SCHEMES is rendered in insertion order; the OS detail
of a socket.gaierror is elided. -/
def SSRFError.message : SSRFError → String
  | .emptyURL => "URL cannot be empty"
  | .malformedParse d => "Malformed URL: " ++ d
  | .malformedMissingHost => "Malformed URL: missing host"
  | .malformedMissingHostname => "Malformed URL: missing hostname"
  | .schemeNotAllowed s =>
      "URL scheme \x27" ++ s ++ "\x27 not allowed. Only [\x27http\x27, \x27https\x27] are permitted"
  | .dangerousPort p => "Port " ++ toString p ++ " not allowed - potentially dangerous service"
  | .systemPort p => "Port " ++ toString p ++ " not allowed - system port range"
  | .domainNotInAllowlist h => "Domain \x27" ++ h ++ "\x27 not in allowlist"
  | .loopbackAddr ip => "Localhost/loopback address not allowed: " ++ ip.str
  | .linkLocalAddr ip => "Link-local address not allowed: " ++ ip.str
  | .privateAddr ip => "Private IP address not allowed: " ++ ip.str
  | .multicastAddr ip => "Multicast address not allowed: " ++ ip.str
  | .unspecifiedAddr ip => "Unspecified address not allowed: " ++ ip.str
  | .broadcastAddr ip => "Broadcast address not allowed: " ++ ip.str
  | .resolutionFailure h => "Failed to resolve hostname \x27" ++ h ++ "\x27"
  | .resolvesToUnsafe h e =>
      "Hostname \x27" ++ h ++ "\x27 resolves to private/dangerous IP: " ++ e.message

/-- A hostname string as returned by parsed.hostname, together with its
interpretation by ipaddress.ip_address: some value when the string is an
IP literal (the _is_ip_address test of the source succeeds), none when
it is a name to be resolved. -/
structure Hostname where
  str : String
  asIP : Option IPAddr
  deriving DecidableEq

/-- The fields of a urllib.parse.urlparse result that validate_url
reads.  parsed.hostname is already lowercased by urlparse and is none
when the authority has no host part. -/
structure ParsedURL where
  scheme : String
  netloc : String
  hostname : Option Hostname
  port : Option Nat
  deriving DecidableEq

/-- Outcome of the urlparse call inside the try block of validate_url:
either the parsed structure or a raised exception with its text. -/
inductive ParseResult where
  | failure (detail : String)
  | success (p : ParsedURL)
  deriving DecidableEq

/-- A URL string as seen by the validator: the two string-level facts the
code branches on (emptiness for the transcribe precheck, blankness for
validate_url) plus its urlparse outcome. -/
structure URLInput where
  isEmpty : Bool
  isBlank : Bool
  parse : ParseResult
  deriving DecidableEq

/-- A non-blank URL string whose urlparse outcome is p. -/
def URLInput.ofParsed (p : ParsedURL) : URLInput :=
  { isEmpty := false, isBlank := false, parse := .success p }

/-- DNS resolution oracle standing for socket.getaddrinfo: none models a
raised socket.gaierror, some gives the deduplicated resolved addresses
in iteration order. -/
def Resolver : Type := String → Option (List IPAddr)

/-! ## URLValidator (src/scripts/url_validator.py) -/

/-- Python str.lower on the ASCII strings the validator sees (URL
schemes), as a character map. -/
def pyLower (s : String) : String := String.mk (s.data.map Char.toLower)

/-- ALLOWED_SCHEMES = the http and https schemes. -/
def ALLOWED_SCHEMES : List String := ["http", "https"]

/-- DANGEROUS_PORTS of url_validator.py, verbatim. -/
def DANGEROUS_PORTS : List Nat :=
  [22, 23, 25, 53, 110, 143, 993, 995, 1433, 3306, 5432, 6379, 11211, 27017]

/-- SAFE_PORTS of url_validator.py, verbatim. -/
def SAFE_PORTS : List Nat := [80, 443, 8080, 8443]

/-- The configuration held by a URLValidator instance. -/
structure URLValidator where
  allowed_domains : Option (List String)
  request_timeout : Nat
  deriving DecidableEq

/-- URLValidator.__init__: a falsy allowed_domains argument (none or the
empty list) leaves the allowlist unset. -/
def URLValidator.init (allowed_domains : Option (List String)) (request_timeout : Nat) :
    URLValidator :=
  { allowed_domains :=
      match allowed_domains with
      | some ds => if ds.isEmpty then none else some ds
      | none => none
    request_timeout := request_timeout }

/-- URLValidator._validate_scheme. -/
def _validate_scheme (scheme : String) : Except SSRFError Unit :=
  if ALLOWED_SCHEMES.contains (pyLower scheme) then .ok ()
  else .error (.schemeNotAllowed scheme)

/-- URLValidator._validate_port; the scheme argument is accepted and
ignored, as in the source. -/
def _validate_port (port : Option Nat) ( _scheme : String) : Except SSRFError Unit :=
  match port with
  | none => .ok ()
  | some p =>
    if DANGEROUS_PORTS.contains p then .error (.dangerousPort p)
    else if ¬ SAFE_PORTS.contains p ∧ ¬ [80, 443].contains p then
      if p < 1024 then .error (.systemPort p) else .ok ()
    else .ok ()

/-- URLValidator._validate_domain_allowlist: exact match or dot-suffixed
subdomain match against the allowlist. -/
def _validate_domain_allowlist (allowed : List String) (hostname : String) :
    Except SSRFError Unit :=
  if allowed.contains hostname then .ok ()
  else if allowed.any (fun d => hostname.endsWith ("." ++ d)) then .ok ()
  else .error (.domainNotInAllowlist hostname)

/-- The IPv4 part of URLValidator._validate_ip_address: the checks taken
when ipaddress.ip_address returned an IPv4Address, in source order. -/
def _validate_ipv4 (a : Nat) : Except SSRFError Unit :=
  if IPv4.is_loopback a then .error (.loopbackAddr (.v4 a))
  else if IPv4.is_link_local a then .error (.linkLocalAddr (.v4 a))
  else if IPv4.is_private a then .error (.privateAddr (.v4 a))
  else if IPv4.is_multicast a then .error (.multicastAddr (.v4 a))
  else if IPv4.is_unspecified a then .error (.unspecifiedAddr (.v4 a))
  else if a = ipv4 255 255 255 255 then .error (.broadcastAddr (.v4 a))
  else .ok ()

/-- URLValidator._validate_ip_address.  For an IPv6 address the checks
run in source order and, after all of them pass, an IPv4-mapped address
is unwrapped and revalidated recursively; the recursive call operates on
the embedded IPv4Address, hence equals the IPv4 branch. -/
def _validate_ip_address : IPAddr → Except SSRFError Unit
  | .v4 a => _validate_ipv4 a
  | .v6 a =>
    if IPv6.is_loopback a then .error (.loopbackAddr (.v6 a))
    else if IPv6.is_link_local a then .error (.linkLocalAddr (.v6 a))
    else if IPv6.is_private a then .error (.privateAddr (.v6 a))
    else if IPv6.is_multicast a then .error (.multicastAddr (.v6 a))
    else if IPv6.is_unspecified a then .error (.unspecifiedAddr (.v6 a))
    else
      match IPv6.ipv4_mapped a with
      | some m => _validate_ipv4 m
      | none => .ok ()

/-- URLValidator._validate_hostname_resolution: resolve the hostname and
validate every resolved address, wrapping the first failure.  A none
from the resolver models socket.gaierror. -/
def _validate_hostname_resolution (resolve : Resolver) (hostname : String) :
    Except SSRFError Unit :=
  match resolve hostname with
  | none => .error (.resolutionFailure hostname)
  | some ips =>
    match ips.findSome? (fun ip =>
        match _validate_ip_address ip with
        | .error e => some e
        | .ok _ => none) with
    | some e => .error (.resolvesToUnsafe hostname e)
    | none => .ok ()

/-- URLValidator.validate_url, in source order: blank check, urlparse,
scheme check, netloc check, hostname check, port check, optional
allowlist check, then IP-literal classification or DNS resolution
validation.  Each raise short-circuits the rest, written as explicit
error propagation. -/
def URLValidator.validate_url (v : URLValidator) (resolve : Resolver) (url : URLInput) :
    Except SSRFError Unit :=
  if url.isBlank then .error .emptyURL
  else
    match url.parse with
    | .failure d => .error (.malformedParse d)
    | .success parsed =>
      match _validate_scheme parsed.scheme with
      | .error e => .error e
      | .ok _ =>
        if parsed.netloc = "" then .error .malformedMissingHost
        else
          match parsed.hostname with
          | none => .error .malformedMissingHostname
          | some h =>
            match _validate_port parsed.port parsed.scheme with
            | .error e => .error e
            | .ok _ =>
              match
                (match v.allowed_domains with
                 | some ds => _validate_domain_allowlist ds h.str
                 | none => .ok ()) with
              | .error e => .error e
              | .ok _ =>
                match h.asIP with
                | some ip => _validate_ip_address ip
                | none => _validate_hostname_resolution resolve h.str

/-! ## WhisperDaemon (src/scripts/whisper_daemon.py)

The mutable attributes of the daemon object become an explicit state
record; the environment a call runs in (the clock, DNS answers, and the
success or failure of the OS and engine operations, each standing for
one exception site) is an oracle record passed to the call. -/

/-- The mutable daemon attributes.  model_loaded stands for the Python
check that self.model is not None; timestamps carry time.time values. -/
structure WhisperDaemon where
  idle_timeout : Int
  model_name : String
  device : String
  model_loaded : Bool
  last_activity : Int
  running : Bool
  shutdown_event : Bool
  url_validator : URLValidator
  deriving DecidableEq

/-- WhisperDaemon._unload_model: drop the model handle when loaded. -/
def WhisperDaemon._unload_model (s : WhisperDaemon) : WhisperDaemon :=
  if s.model_loaded then { s with model_loaded := false } else s

/-- WhisperDaemon._shutdown: clear running, unload the model, set the
shutdown event. -/
def WhisperDaemon._shutdown (s : WhisperDaemon) : WhisperDaemon :=
  let s := { s with running := false }
  let s := s._unload_model
  { s with shutdown_event := true }

/-- One iteration of the WhisperDaemon._idle_checker loop: the loop
guard samples running, then after the sleep the clock reading now is
compared against the idle timeout; strict excess triggers _shutdown. -/
def WhisperDaemon._idle_checker_step (now : Int) (s : WhisperDaemon) : WhisperDaemon :=
  if s.running then
    if now - s.last_activity > s.idle_timeout then s._shutdown else s
  else s

/-- WhisperDaemon._load_model: a no-op when already loaded, otherwise
whisper.load_model either succeeds (oracle load_ok) or raises with the
given message. -/
def WhisperDaemon._load_model (load_ok : Bool) (load_error : String) (s : WhisperDaemon) :
    Except String WhisperDaemon :=
  if s.model_loaded then .ok s
  else if load_ok then .ok { s with model_loaded := true } else .error load_error

/-- One segment of a whisper engine result: the end timestamp read by
the duration sum (absent keys read as 0) and the optional per-word
timestamp entries, kept opaque. -/
structure Segment where
  seg_end : Option Int
  words : Option (List String)
  deriving DecidableEq

/-- The mapping returned by model.transcribe: text, optional language,
optional segments list. -/
structure WhisperResult where
  text : String
  language : Option String
  segments : Option (List Segment)
  deriving DecidableEq

/-- A response dictionary: one optional field per key the daemon ever
writes, none meaning the key is absent. -/
structure DResponse where
  id : Option String := none
  success : Bool
  error : Option String := none
  traceback_present : Bool := false
  message : Option String := none
  model : Option String := none
  device : Option String := none
  model_loaded : Option Bool := none
  last_activity : Option Int := none
  idle_timeout : Option Int := none
  text : Option String := none
  language : Option String := none
  duration : Option Int := none
  segments : Option (List Segment) := none
  word_timestamps : Option (List String) := none
  deriving DecidableEq

/-- The failure dictionary built by the except clause of
transcribe_audio: success False, error str(e), traceback attached. -/
def failureResponse (msg : String) : DResponse :=
  { success := false, error := some msg, traceback_present := true }

/-- The success dictionary built at the end of transcribe_audio:
stripped text, language defaulting to unknown, duration as the sum of
segment end times, the segments, and the flattened word timestamps. -/
def successResponse (result : WhisperResult) : DResponse :=
  let segs := result.segments.getD []
  { success := true
    text := some result.text.trim
    language := some (result.language.getD "unknown")
    duration := some (segs.map (fun seg => seg.seg_end.getD 0)).sum
    segments := some segs
    word_timestamps := some
      (match result.segments with
       | some ss => ss.flatMap fun seg => seg.words.getD []
       | none => []) }

/-- A request dictionary: the keys handle_request and transcribe_audio
read, each optional because dictionary keys may be absent. -/
structure Request where
  id : Option String
  action : Option String
  url : Option (URLInput)
  language : Option String
  word_timestamps : Option Bool

/-- Environment of one transcribe_audio call: the clock at entry, DNS
answers, and an oracle per exception site (model load, temp file
creation, the urlopen download, the engine call, the cleanup unlink)
with the message text of the raised exception where one is raised. -/
structure TranscribeEnv where
  now : Int
  resolve : Resolver
  load_ok : Bool
  load_error : String
  temp_create_ok : Bool
  temp_create_error : String
  fetch_ok : Bool
  fetch_error : String
  engine : Option WhisperResult
  engine_error : String
  unlink_ok : Bool

/-- Observable outcome of one transcribe_audio call: the daemon state,
the returned response, whether urllib.request.urlopen was invoked,
whether the temporary file was created, and whether it still exists
when the call returns. -/
structure TranscribeOutcome where
  state : WhisperDaemon
  response : DResponse
  fetch_invoked : Bool
  temp_created : Bool
  temp_exists : Bool

/-- WhisperDaemon.transcribe_audio.  In source order: last_activity is
set at entry, the model is loaded, the url parameter is extracted and
its absence (or Python falsiness) raises, URL validation runs and an
SSRFError is rewrapped as ValueError, the secure temporary file is
created, the download and the engine run inside a try whose finally
always attempts the cleanup unlink (a cleanup failure is swallowed),
and every exception of the body is caught by the outer except clause
which returns the failure dictionary. -/
def WhisperDaemon.transcribe_audio (s : WhisperDaemon) (env : TranscribeEnv)
    (req : Request) : TranscribeOutcome :=
  let s := { s with last_activity := env.now }
  match s._load_model env.load_ok env.load_error with
  | .error e => ⟨s, failureResponse e, false, false, false⟩
  | .ok s =>
    match req.url with
    | none => ⟨s, failureResponse "Missing \x27url\x27 parameter", false, false, false⟩
    | some u =>
      if u.isEmpty then
        ⟨s, failureResponse "Missing \x27url\x27 parameter", false, false, false⟩
      else
        match s.url_validator.validate_url env.resolve u with
        | .error e =>
          ⟨s, failureResponse ("URL validation failed: " ++ e.message), false, false, false⟩
        | .ok _ =>
          if !env.temp_create_ok then
            ⟨s, failureResponse env.temp_create_error, false, false, false⟩
          else
            let exists_after := !env.unlink_ok
            if !env.fetch_ok then
              ⟨s, failureResponse env.fetch_error, true, true, exists_after⟩
            else
              match env.engine with
              | none => ⟨s, failureResponse env.engine_error, true, true, exists_after⟩
              | some result => ⟨s, successResponse result, true, true, exists_after⟩

/-- Environment of one handle_request call: the transcribe environment
plus an oracle for an exception escaping the dispatched branch, which
the except clause of handle_request converts into a failure response
that still carries the request id. -/
structure HandleEnv where
  tenv : TranscribeEnv
  handler_raises : Bool
  handler_error : String

/-- Python str(x) of the optional action tag as interpolated into the
unknown-action message: None renders as the string None. -/
def pyReprOptStr : Option String → String
  | none => "None"
  | some s => s

/-- WhisperDaemon.handle_request: read id (defaulting to the string
unknown) and action, dispatch on the action tag, attach the request id
to the response of every branch, and convert an escaping exception into
a failure response that carries the same id. -/
def WhisperDaemon.handle_request (s : WhisperDaemon) (env : HandleEnv) (req : Request) :
    WhisperDaemon × DResponse :=
  let request_id := req.id.getD "unknown"
  if env.handler_raises then
    (s, { success := false, id := some request_id, error := some env.handler_error,
          traceback_present := true })
  else
    match req.action with
    | some "transcribe" =>
      let o := s.transcribe_audio env.tenv req
      (o.state, { o.response with id := some request_id })
    | some "ping" =>
      (s, { success := true, message := some "pong", id := some request_id })
    | some "status" =>
      (s, { success := true, model := some s.model_name, device := some s.device,
            model_loaded := some s.model_loaded, last_activity := some s.last_activity,
            idle_timeout := some s.idle_timeout, id := some request_id })
    | some "shutdown" =>
      (s._shutdown, { success := true, message := some "shutting down", id := some request_id })
    | a =>
      (s, { success := false, error := some ("Unknown action: " ++ pyReprOptStr a),
            id := some request_id })

/-! ## Concrete fixtures for evaluation

The URLInput values record the observed urlparse and
ipaddress.ip_address behaviour on the concrete URL strings named in
their doc comments. -/

/-- URLValidator() with defaults: no allowlist, timeout 10. -/
def V0 : URLValidator := URLValidator.init none 10

/-- A resolver under which every hostname lookup raises
socket.gaierror; the fixtures below never reach resolution. -/
def R0 : Resolver := fun _ => none

/-- The URL http://127.0.0.1/x: scheme http, netloc 127.0.0.1, hostname
the IPv4 literal 127.0.0.1, no explicit port. -/
def u127 : URLInput :=
  URLInput.ofParsed ⟨"http", "127.0.0.1", some ⟨"127.0.0.1", some (.v4 (ipv4 127 0 0 1))⟩, none⟩

/-- The IPv6 address ::ffff:127.0.0.1 as a 128-bit value. -/
def mapped127 : Nat := 0xffff * 2 ^ 32 + ipv4 127 0 0 1

/-- The URL http://[::ffff:127.0.0.1]/x: scheme http, netloc the
bracketed literal, hostname the IPv4-mapped IPv6 literal. -/
def umapped : URLInput :=
  URLInput.ofParsed
    ⟨"http", "[::ffff:127.0.0.1]", some ⟨"::ffff:127.0.0.1", some (.v6 mapped127)⟩, none⟩

/-- The URL string ftp:// : urlparse yields scheme ftp, empty netloc,
no hostname; the raw string is neither empty nor blank. -/
def uftp : URLInput := ⟨false, false, .success ⟨"ftp", "", none, none⟩⟩

/-- A daemon as constructed with the defaults after the eager model
load: idle_timeout 300, model base on cpu, model loaded, activity at
time 0, running, shutdown event unset, validator V0. -/
def D0 : WhisperDaemon :=
  { idle_timeout := 300, model_name := "base", device := "cpu", model_loaded := true,
    last_activity := 0, running := true, shutdown_event := false, url_validator := V0 }

/-- An engine result with one segment. -/
def WR0 : WhisperResult :=
  { text := " hello ", language := some "en",
    segments := some [{ seg_end := some 3, words := some ["w0"] }] }

/-- A benign transcribe environment observed at time 5: every OS and
engine operation succeeds. -/
def TE0 : TranscribeEnv :=
  { now := 5, resolve := R0, load_ok := true, load_error := "load failed",
    temp_create_ok := true, temp_create_error := "temp failed", fetch_ok := true,
    fetch_error := "fetch failed", engine := some WR0, engine_error := "engine failed",
    unlink_ok := true }

/-- A handle_request environment around TE0 with no escaping exception. -/
def HE0 : HandleEnv := { tenv := TE0, handler_raises := false, handler_error := "boom" }

/-- A handle_request environment whose dispatched branch raises. -/
def HEraise : HandleEnv := { tenv := TE0, handler_raises := true, handler_error := "boom" }

/-- A ping request carrying an id. -/
def reqPing : Request :=
  { id := some "p1", action := some "ping", url := none, language := none,
    word_timestamps := none }

/-- A transcribe request for http://127.0.0.1/x carrying an id. -/
def reqT127 : Request :=
  { id := some "t1", action := some "transcribe", url := some u127, language := none,
    word_timestamps := none }

/-- A request with an unrecognized action tag, carrying an id. -/
def reqBogus : Request :=
  { id := some "b1", action := some "bogus", url := none, language := none,
    word_timestamps := none }

/-- A status request with no id key. -/
def reqNoId : Request :=
  { id := none, action := some "status", url := none, language := none,
    word_timestamps := none }

/-- A transcribe request for http://127.0.0.1/x with no id key. -/
def reqT127NoId : Request :=
  { id := none, action := some "transcribe", url := some u127, language := none,
    word_timestamps := none }

/-- A parsed URL with a valid host and dangerous explicit port 22, as
urlparse yields for http://example.com:22/x. -/
def pHost22 : ParsedURL := ⟨"http", "example.com:22", some ⟨"example.com", none⟩, some 22⟩

/-- A parsed URL with a valid host and system port 600, as urlparse
yields for http://example.com:600/x. -/
def pHost600 : ParsedURL := ⟨"http", "example.com:600", some ⟨"example.com", none⟩, some 600⟩

/-- The parse of http:// : allowed scheme, empty netloc, no hostname. -/
def pNoNetloc : ParsedURL := ⟨"http", "", none, none⟩

/-- The parse of http://:8080 : allowed scheme, nonempty netloc, but no
hostname. -/
def pNoHostname : ParsedURL := ⟨"http", ":8080", none, some 8080⟩

/-! ## Helper lemmas -/

/-- Every path through transcribe_audio leaves last_activity at the
clock reading taken on entry. -/
theorem transcribe_audio_sets_last_activity (s : WhisperDaemon) (env : TranscribeEnv)
    (req : Request) : (s.transcribe_audio env req).state.last_activity = env.now := by
  obtain ⟨it, mn, dv, ml, la, run, ev, uv⟩ := s
  obtain ⟨now, res, lok, lerr, tok, terr, fok, ferr, eng, eerr, uok⟩ := env
  unfold WhisperDaemon.transcribe_audio WhisperDaemon._load_model
  cases ml <;> cases lok <;> simp <;> (repeat' split) <;> simp_all

/-- _load_model succeeds when the model is already loaded or the load
oracle succeeds, returning the state with the model marked loaded. -/
theorem _load_model_ok_of (load_ok : Bool) (msg : String) (s : WhisperDaemon)
    (h : s.model_loaded = true ∨ load_ok = true) :
    s._load_model load_ok msg = .ok { s with model_loaded := true } := by
  obtain ⟨it, mn, dv, ml, la, run, ev, uv⟩ := s
  unfold WhisperDaemon._load_model
  rcases h with h | h
  · dsimp at h; subst h; rfl
  · subst h
    cases ml <;> rfl

/-- With no escaping exception, a transcribe request dispatches to
transcribe_audio and the request id is attached to its response. -/
theorem handle_request_transcribe_eq (s : WhisperDaemon) (env : HandleEnv) (req : Request)
    (hraise : env.handler_raises = false) (ha : req.action = some "transcribe") :
    s.handle_request env req =
      ((s.transcribe_audio env.tenv req).state,
       { (s.transcribe_audio env.tenv req).response with id := some (req.id.getD "unknown") }) := by
  unfold WhisperDaemon.handle_request
  rw [hraise, ha]
  rfl

/-- When URL validation raises an SSRFError, transcribe_audio returns
the failure response built from the rewrapped ValueError text, creates
no temporary file, performs no fetch, and only touches last_activity
and the model flag. -/
theorem transcribe_audio_ssrf (s : WhisperDaemon) (env : TranscribeEnv) (req : Request)
    (u : URLInput) (e : SSRFError)
    (hload : s.model_loaded = true ∨ env.load_ok = true)
    (hurl : req.url = some u) (hne : u.isEmpty = false)
    (hval : s.url_validator.validate_url env.resolve u = .error e) :
    s.transcribe_audio env req =
      ⟨{ s with last_activity := env.now, model_loaded := true },
       failureResponse ("URL validation failed: " ++ e.message), false, false, false⟩ := by
  unfold WhisperDaemon.transcribe_audio
  dsimp only
  rw [_load_model_ok_of env.load_ok env.load_error _ (by simpa using hload)]
  dsimp only
  rw [hurl]
  dsimp only
  simp [hne, hval]

/-- _shutdown clears running, unloads the model, sets the shutdown
event, and does not touch last_activity. -/
theorem _shutdown_spec (s : WhisperDaemon) :
    s._shutdown.running = false ∧ s._shutdown.model_loaded = false ∧
    s._shutdown.shutdown_event = true ∧ s._shutdown.last_activity = s.last_activity := by
  obtain ⟨it, mn, dv, ml, la, run, ev, uv⟩ := s
  cases ml <;> exact ⟨rfl, rfl, rfl, rfl⟩

/-- Any SSRFError raised by validate_url, with a held hostname and a
port check rejection, propagates unchanged: when the scheme is allowed,
the netloc nonempty, the hostname present, and the port check raises e,
validate_url raises e. -/
theorem validate_url_port_error (v : URLValidator) (resolve : Resolver) (parsed : ParsedURL)
    (hn : Hostname) (e : SSRFError)
    (hscheme : pyLower parsed.scheme ∈ ALLOWED_SCHEMES)
    (hnetloc : parsed.netloc ≠ "")
    (hhost : parsed.hostname = some hn)
    (hport : _validate_port parsed.port parsed.scheme = .error e) :
    v.validate_url resolve (URLInput.ofParsed parsed) = .error e := by
  simp [URLValidator.validate_url, URLInput.ofParsed, _validate_scheme, hscheme, hhost,
    hport, hnetloc]

/-! ## Claim theorems -/

/-- C1: for every transcribe request whose URL fails SSRF validation,
handle_request returns a failure response whose error text is the
validation message naming the violated rule, and for that request the
temporary file is never created, the fetch is never invoked, and no
temporary file exists on return. -/
theorem c1_ssrf_rejection_blocks_fetch (s : WhisperDaemon) (env : HandleEnv) (req : Request)
    (u : URLInput) (e : SSRFError)
    (haction : req.action = some "transcribe")
    (hraise : env.handler_raises = false)
    (hload : s.model_loaded = true ∨ env.tenv.load_ok = true)
    (hurl : req.url = some u) (hne : u.isEmpty = false)
    (hval : s.url_validator.validate_url env.tenv.resolve u = .error e) :
    (s.handle_request env req).2.success = false ∧
    (s.handle_request env req).2.error = some ("URL validation failed: " ++ e.message) ∧
    (s.transcribe_audio env.tenv req).temp_created = false ∧
    (s.transcribe_audio env.tenv req).fetch_invoked = false ∧
    (s.transcribe_audio env.tenv req).temp_exists = false := by
  have ht := transcribe_audio_ssrf s env.tenv req u e hload hurl hne hval
  rw [handle_request_transcribe_eq s env req hraise haction, ht]
  exact ⟨rfl, rfl, rfl, rfl, rfl⟩

/-- Witness for C1 at the concrete loopback URL http://127.0.0.1/x. -/
theorem c1_ssrf_rejection_blocks_fetch_witness :
    (D0.handle_request HE0 reqT127).2.success = false ∧
    (D0.handle_request HE0 reqT127).2.error =
      some ("URL validation failed: " ++
        (SSRFError.loopbackAddr (.v4 (ipv4 127 0 0 1))).message) ∧
    (D0.transcribe_audio TE0 reqT127).temp_created = false ∧
    (D0.transcribe_audio TE0 reqT127).fetch_invoked = false ∧
    (D0.transcribe_audio TE0 reqT127).temp_exists = false :=
  c1_ssrf_rejection_blocks_fetch D0 HE0 reqT127 u127
    (SSRFError.loopbackAddr (.v4 (ipv4 127 0 0 1)))
    rfl rfl (Or.inl rfl) rfl rfl (by rfl)

/-- C2: evaluation of the embedded validator at the failing input.  The
URL http://[::ffff:127.0.0.1]/x is rejected as a Private address (the
is_private check of CPython delegates to the embedded IPv4 address and
fires before the ipv4_mapped unwrap is reached), while
http://127.0.0.1/x is rejected as Loopback: the two classifications
differ, although the unwrap of the mapped address is exactly
127.0.0.1.  The repository test test_localhost_blocked expects
localhost/loopback wording for both URLs. -/
theorem c2_mapped_loopback_rejected_as_private :
    V0.validate_url R0 umapped = .error (.privateAddr (.v6 mapped127)) ∧
    V0.validate_url R0 u127 = .error (.loopbackAddr (.v4 (ipv4 127 0 0 1))) ∧
    SSRFError.privateAddr (.v6 mapped127) ≠
      SSRFError.loopbackAddr (.v4 (ipv4 127 0 0 1)) ∧
    IPv6.ipv4_mapped mapped127 = some (ipv4 127 0 0 1) :=
  ⟨by rfl, by rfl, by decide, by rfl⟩

/-- C3: port policy.  For a URL with allowed scheme, nonempty netloc
and a hostname: a dangerous explicit port is rejected with the
dangerous-port error whatever the host; an explicit port below 1024
outside the safe set and the dangerous set is rejected with the
system-port error; the port check passes every port at least 1024
outside the dangerous set; and the port check passes when no explicit
port is given. -/
theorem c3_port_policy (v : URLValidator) (resolve : Resolver) (parsed : ParsedURL)
    (hn : Hostname) (p : Nat)
    (hscheme : pyLower parsed.scheme ∈ ALLOWED_SCHEMES)
    (hnetloc : parsed.netloc ≠ "")
    (hhost : parsed.hostname = some hn) :
    (parsed.port = some p → p ∈ DANGEROUS_PORTS →
      v.validate_url resolve (URLInput.ofParsed parsed) = .error (.dangerousPort p)) ∧
    (parsed.port = some p → p ∉ DANGEROUS_PORTS → p ∉ SAFE_PORTS → p < 1024 →
      v.validate_url resolve (URLInput.ofParsed parsed) = .error (.systemPort p)) ∧
    (p ∉ DANGEROUS_PORTS → 1024 ≤ p →
      _validate_port (some p) parsed.scheme = .ok ()) ∧
    _validate_port none parsed.scheme = .ok () := by
  refine ⟨fun hp hd => ?_, fun hp hd hsafe hlt => ?_, fun hd hge => ?_, rfl⟩
  · refine validate_url_port_error v resolve parsed hn _ hscheme hnetloc hhost ?_
    rw [hp]
    unfold _validate_port
    simp [hd]
  · have hs' : p ≠ 80 ∧ p ≠ 443 ∧ p ≠ 8080 ∧ p ≠ 8443 := by
      simpa [SAFE_PORTS] using hsafe
    refine validate_url_port_error v resolve parsed hn _ hscheme hnetloc hhost ?_
    rw [hp]
    unfold _validate_port
    simp [hd, hsafe, hs'.1, hs'.2.1, hlt]
  · have hnl : ¬ p < 1024 := by omega
    unfold _validate_port
    simp [hd, hnl]

/-- Witness for C3 at ports 22, 600, 8081 and at an absent port. -/
theorem c3_port_policy_witness :
    V0.validate_url R0 (URLInput.ofParsed pHost22) = .error (.dangerousPort 22) ∧
    V0.validate_url R0 (URLInput.ofParsed pHost600) = .error (.systemPort 600) ∧
    _validate_port (some 8081) pHost22.scheme = .ok () ∧
    _validate_port none pHost22.scheme = .ok () :=
  ⟨(c3_port_policy V0 R0 pHost22 ⟨"example.com", none⟩ 22 (by decide) (by decide) rfl).1 rfl
     (by decide),
   (c3_port_policy V0 R0 pHost600 ⟨"example.com", none⟩ 600 (by decide) (by decide)
     rfl).2.1 rfl (by decide) (by decide) (by decide),
   (c3_port_policy V0 R0 pHost22 ⟨"example.com", none⟩ 8081 (by decide) (by decide)
     rfl).2.2.1 (by decide) (by decide),
   (c3_port_policy V0 R0 pHost22 ⟨"example.com", none⟩ 22 (by decide) (by decide)
     rfl).2.2.2⟩

/-- Counterexample to C4: the URL string ftp:// parses with no netloc
and no hostname, yet validation fails with SchemeNotAllowed, not with
either Malformed error — the scheme check runs first. -/
theorem c4_counterexample :
    uftp.parse = ParseResult.success ⟨"ftp", "", none, none⟩ ∧
    V0.validate_url R0 uftp = .error (.schemeNotAllowed "ftp") ∧
    (Except.error (SSRFError.schemeNotAllowed "ftp") : Except SSRFError Unit) ≠
      .error .malformedMissingHost ∧
    (Except.error (SSRFError.schemeNotAllowed "ftp") : Except SSRFError Unit) ≠
      .error .malformedMissingHostname :=
  ⟨rfl, by rfl, by simp, by simp⟩

/-- C4 amended: the scheme check precedes the structure check.  A URL
whose scheme is allowed and whose parsed structure is missing the
netloc or the hostname fails with the corresponding Malformed error; a
URL whose scheme is not allowed fails with SchemeNotAllowed whatever
its structure. -/
theorem c4_scheme_check_precedes_structure (v : URLValidator) (resolve : Resolver)
    (parsed : ParsedURL) :
    (pyLower parsed.scheme ∈ ALLOWED_SCHEMES →
      (parsed.netloc = "" →
        v.validate_url resolve (URLInput.ofParsed parsed) = .error .malformedMissingHost) ∧
      (parsed.netloc ≠ "" → parsed.hostname = none →
        v.validate_url resolve (URLInput.ofParsed parsed) =
          .error .malformedMissingHostname)) ∧
    (pyLower parsed.scheme ∉ ALLOWED_SCHEMES →
      v.validate_url resolve (URLInput.ofParsed parsed) =
        .error (.schemeNotAllowed parsed.scheme)) := by
  refine ⟨fun hs => ⟨fun hn => ?_, fun hn hh => ?_⟩, fun hs => ?_⟩
  · simp [URLValidator.validate_url, URLInput.ofParsed, _validate_scheme, hs, hn]
  · simp [URLValidator.validate_url, URLInput.ofParsed, _validate_scheme, hs, hn, hh]
  · simp [URLValidator.validate_url, URLInput.ofParsed, _validate_scheme, hs]

/-- Witness for the amended C4 at http://, http://:8080 and ftp://. -/
theorem c4_scheme_check_precedes_structure_witness :
    V0.validate_url R0 (URLInput.ofParsed pNoNetloc) = .error .malformedMissingHost ∧
    V0.validate_url R0 (URLInput.ofParsed pNoHostname) = .error .malformedMissingHostname ∧
    V0.validate_url R0 (URLInput.ofParsed ⟨"ftp", "", none, none⟩) =
      .error (.schemeNotAllowed "ftp") :=
  ⟨((c4_scheme_check_precedes_structure V0 R0 pNoNetloc).1 (by decide)).1 rfl,
   ((c4_scheme_check_precedes_structure V0 R0 pNoHostname).1 (by decide)).2 (by decide) rfl,
   (c4_scheme_check_precedes_structure V0 R0 ⟨"ftp", "", none, none⟩).2 (by decide)⟩

/-- C5: after any transcribe call in which the cleanup unlink succeeds,
no temporary file exists on return — whether the call never created
one, the download failed, the engine raised, or transcription
succeeded; and the cleanup outcome never changes the returned
response. -/
theorem c5_temp_file_cleanup (s : WhisperDaemon) (env : TranscribeEnv) (req : Request) :
    (s.transcribe_audio { env with unlink_ok := true } req).temp_exists = false ∧
    (s.transcribe_audio { env with unlink_ok := false } req).response =
      (s.transcribe_audio { env with unlink_ok := true } req).response := by
  obtain ⟨it, mn, dv, ml, la, run, ev, uv⟩ := s
  obtain ⟨now, res, lok, lerr, tok, terr, fok, ferr, eng, eerr, uok⟩ := env
  constructor <;>
    (unfold WhisperDaemon.transcribe_audio WhisperDaemon._load_model
     cases ml <;> cases lok <;> simp <;> (repeat' split) <;> simp_all)

/-- Counterexample to C6: at the exact boundary now − last_activity =
idle_timeout the daemon observes the condition while running and does
not shut down, because the code compares with strict inequality. -/
theorem c6_counterexample :
    D0.running = true ∧ (300 : Int) - D0.last_activity ≥ D0.idle_timeout ∧
    D0._idle_checker_step 300 = D0 ∧ (D0._idle_checker_step 300).running = true := by
  decide

/-- C6 amended: whenever the idle checker observes now − last_activity
strictly greater than idle_timeout while the daemon is running, the
daemon autonomously shuts down: running becomes false, the engine
handle is released, and the shutdown event is set. -/
theorem c6_idle_timeout_strict_shutdown (s : WhisperDaemon) (now : Int)
    (hrun : s.running = true)
    (hidle : now - s.last_activity > s.idle_timeout) :
    s._idle_checker_step now = s._shutdown ∧
    (s._idle_checker_step now).running = false ∧
    (s._idle_checker_step now).model_loaded = false ∧
    (s._idle_checker_step now).shutdown_event = true := by
  have hstep : s._idle_checker_step now = s._shutdown := by
    unfold WhisperDaemon._idle_checker_step
    rw [hrun]
    simp [hidle]
  refine ⟨hstep, ?_, ?_, ?_⟩ <;> rw [hstep]
  · exact (_shutdown_spec s).1
  · exact (_shutdown_spec s).2.1
  · exact (_shutdown_spec s).2.2.1

/-- Witness for the amended C6 one tick past the timeout. -/
theorem c6_idle_timeout_strict_shutdown_witness :
    D0._idle_checker_step 301 = D0._shutdown ∧
    (D0._idle_checker_step 301).running = false ∧
    (D0._idle_checker_step 301).model_loaded = false ∧
    (D0._idle_checker_step 301).shutdown_event = true :=
  c6_idle_timeout_strict_shutdown D0 301 (by decide) (by decide)

/-- Counterexample to C7: a successful ping leaves last_activity
unchanged instead of setting it to the current time. -/
theorem c7_counterexample :
    (D0.handle_request HE0 reqPing).2.success = true ∧
    HE0.tenv.now = 5 ∧ D0.last_activity = 0 ∧
    (D0.handle_request HE0 reqPing).1.last_activity = 0 ∧
    (D0.handle_request HE0 reqPing).1.last_activity ≠ HE0.tenv.now := by
  decide

/-- C7 amended: only the transcribe dispatch updates last_activity (to
the clock reading at its entry); ping, status and shutdown leave
last_activity unchanged. -/
theorem c7_only_transcribe_updates_last_activity (s : WhisperDaemon) (env : HandleEnv)
    (req : Request) (hraise : env.handler_raises = false) :
    ((req.action = some "ping" ∨ req.action = some "status" ∨ req.action = some "shutdown") →
      (s.handle_request env req).1.last_activity = s.last_activity) ∧
    (req.action = some "transcribe" →
      (s.handle_request env req).1.last_activity = env.tenv.now) := by
  constructor
  · rintro (ha | ha | ha)
    · unfold WhisperDaemon.handle_request; rw [hraise, ha]; rfl
    · unfold WhisperDaemon.handle_request; rw [hraise, ha]; rfl
    · unfold WhisperDaemon.handle_request; rw [hraise, ha]
      dsimp only
      exact (_shutdown_spec s).2.2.2
  · intro ha
    rw [handle_request_transcribe_eq s env req hraise ha]
    exact transcribe_audio_sets_last_activity s env.tenv req

/-- Witness for the amended C7: ping keeps last_activity, transcribe
sets it to the clock. -/
theorem c7_only_transcribe_updates_last_activity_witness :
    (D0.handle_request HE0 reqPing).1.last_activity = D0.last_activity ∧
    (D0.handle_request HE0 reqT127).1.last_activity = HE0.tenv.now :=
  ⟨(c7_only_transcribe_updates_last_activity D0 HE0 reqPing rfl).1 (Or.inl rfl),
   (c7_only_transcribe_updates_last_activity D0 HE0 reqT127 rfl).2 rfl⟩

/-- C8: every response carries the request id unchanged, for every
action tag including unrecognized ones and when the dispatched branch
raises an internal error. -/
theorem c8_response_echoes_request_id (s : WhisperDaemon) (env : HandleEnv) (req : Request)
    (i : String) (h : req.id = some i) : (s.handle_request env req).2.id = some i := by
  unfold WhisperDaemon.handle_request
  rw [h]
  dsimp only
  (repeat' split) <;> rfl

/-- Witness for C8 at an unknown action and at a raising dispatch. -/
theorem c8_response_echoes_request_id_witness :
    (D0.handle_request HE0 reqBogus).2.id = some "b1" ∧
    (D0.handle_request HEraise reqT127).2.id = some "t1" :=
  ⟨c8_response_echoes_request_id D0 HE0 reqBogus "b1" rfl,
   c8_response_echoes_request_id D0 HEraise reqT127 "t1" rfl⟩

/-- C9: a request without an id still yields a response whose id field
is present with the literal string unknown. -/
theorem c9_missing_id_defaults_to_unknown (s : WhisperDaemon) (env : HandleEnv)
    (req : Request) (h : req.id = none) :
    (s.handle_request env req).2.id = some "unknown" := by
  unfold WhisperDaemon.handle_request
  rw [h]
  dsimp only
  (repeat' split) <;> rfl

/-- Witness for C9 at a status request and a transcribe request with no
id key. -/
theorem c9_missing_id_defaults_to_unknown_witness :
    (D0.handle_request HE0 reqNoId).2.id = some "unknown" ∧
    (D0.handle_request HE0 reqT127NoId).2.id = some "unknown" :=
  ⟨c9_missing_id_defaults_to_unknown D0 HE0 reqNoId rfl,
   c9_missing_id_defaults_to_unknown D0 HE0 reqT127NoId rfl⟩

/-- C10: every transcribe_audio call sets last_activity to the clock
reading at entry, before URL validation runs, so rejected and failing
requests reset the idle clock exactly as successful ones do. -/
theorem c10_transcribe_updates_activity_at_entry (s : WhisperDaemon) (env : TranscribeEnv)
    (req : Request) : (s.transcribe_audio env req).state.last_activity = env.now :=
  transcribe_audio_sets_last_activity s env req

end VideoCraft
